import Mathlib

/-
  Verification of the promptpack resolution pipeline against its
  natural-language specification.

  Shallow embedding of the Python sources:
    packages/promptpack/src/promptpack/template.py
    packages/promptpack/src/promptpack/variables.py
    packages/promptpack/src/promptpack/types.py
    packages/promptpack/src/promptpack/parser.py
    packages/promptpack-langchain/src/promptpack_langchain/validators.py

  Python machine-level primitives that are not part of the repository
  (the `re` regex engine, `float(...)` string parsing, float `repr`,
  `json.loads`, pydantic's `model_validate`, the filesystem) are modelled
  as explicit oracle parameters; everything written in the repository
  itself is translated definitionally.
-/

set_option maxRecDepth 8192
set_option linter.dupNamespace false

namespace PromptPack

/-- Model of a dynamically typed Python/JSON runtime value as it occurs in
variable mappings, defaults and validator params.  Python floats are
modelled as rationals (only passed through and compared, never computed
with, in the code under verification). -/
inductive PyVal where
  | null : PyVal
  | bool (b : Bool) : PyVal
  | int (n : Int) : PyVal
  | float (q : ℚ) : PyVal
  | str (s : String) : PyVal
  | list (xs : List PyVal) : PyVal
  | dict (kvs : List (String × PyVal)) : PyVal

/-- Python `type(value).__name__` for the values of our model. -/
def typeName : PyVal → String
  | .null => "NoneType"
  | .bool _ => "bool"
  | .int _ => "int"
  | .float _ => "float"
  | .str _ => "str"
  | .list _ => "list"
  | .dict _ => "dict"

/-- Oracles for Python builtin primitives that live outside the repository:
`float(s)` parsing of strings (`Option.none` models a raised
`ValueError`), the decimal rendering of a float by `str`/`repr`, and the
`re` regex engine as used by `re.match` in `variables.py` (the `Except`
error is a raised `re.error`). -/
structure PyOracles where
  parseFloat : String → Option ℚ
  floatStr : ℚ → String
  reMatch : String → String → Except String Bool

/-- Hex digit character for `\uXXXX` escapes. -/
def hexDigit (n : Nat) : Char :=
  if n < 10 then Char.ofNat (48 + n) else Char.ofNat (87 + n)

/-- Four-digit lowercase hex rendering, as produced by `json.dumps`. -/
def natToHex4 (n : Nat) : String :=
  String.mk [hexDigit (n / 4096 % 16), hexDigit (n / 256 % 16),
             hexDigit (n / 16 % 16), hexDigit (n % 16)]

/-- Escaping of one character inside a JSON string literal, following
`json.dumps` with its default `ensure_ascii=True`. -/
def jsonEscapeChar (c : Char) : String :=
  if c = '"' then "\\\""
  else if c = '\\' then "\\\\"
  else if c = '\n' then "\\n"
  else if c = '\t' then "\\t"
  else if c = '\r' then "\\r"
  else if c = Char.ofNat 8 then "\\b"
  else if c = Char.ofNat 12 then "\\f"
  else if c.toNat < 32 then "\\u" ++ natToHex4 c.toNat
  else if c.toNat ≥ 128 then
    if c.toNat ≤ 65535 then "\\u" ++ natToHex4 c.toNat
    else
      "\\u" ++ natToHex4 (55296 + (c.toNat - 65536) / 1024) ++
      "\\u" ++ natToHex4 (56320 + (c.toNat - 65536) % 1024)
  else String.singleton c

/-- JSON string literal for `s`, as produced by `json.dumps`. -/
def jsonStr (s : String) : String :=
  "\"" ++ String.join (s.data.map jsonEscapeChar) ++ "\""

mutual

/-- `json.dumps(value)` with default options (separators `", "` and
`": "`), as called from `TemplateEngine._format_value`. -/
def jsonDumps (O : PyOracles) : PyVal → String
  | .null => "null"
  | .bool b => if b then "true" else "false"
  | .int n => toString n
  | .float q => O.floatStr q
  | .str s => jsonStr s
  | .list xs => "[" ++ jsonDumpsList O xs ++ "]"
  | .dict kvs => "\x7b" ++ jsonDumpsDict O kvs ++ "\x7d"

/-- Comma-joined `json.dumps` of the elements of a JSON array. -/
def jsonDumpsList (O : PyOracles) : List PyVal → String
  | [] => ""
  | [x] => jsonDumps O x
  | x :: y :: xs => jsonDumps O x ++ ", " ++ jsonDumpsList O (y :: xs)

/-- Comma-joined `"key": value` renderings of a JSON object, in the
source mapping's insertion order. -/
def jsonDumpsDict (O : PyOracles) : List (String × PyVal) → String
  | [] => ""
  | [(k, v)] => jsonStr k ++ ": " ++ jsonDumps O v
  | (k, v) :: p :: kvs =>
      jsonStr k ++ ": " ++ jsonDumps O v ++ ", " ++ jsonDumpsDict O (p :: kvs)

end

/-- `TemplateEngine._format_value` (template.py): `None` becomes the empty
string, booleans render lowercase, lists and dicts render as JSON, every
other scalar takes its natural `str` form. -/
def formatValue (O : PyOracles) : PyVal → String
  | .null => ""
  | .bool b => if b then "true" else "false"
  | .list xs => jsonDumps O (.list xs)
  | .dict kvs => jsonDumps O (.dict kvs)
  | .int n => toString n
  | .float q => O.floatStr q
  | .str s => s

/-! ### Template engine (template.py)

The engine substitutes tokens matched by the regex
`\x7b\x7b([a-zA-Z_][a-zA-Z0-9_]*(?::[a-zA-Z_][a-zA-Z0-9_]*)?)\x7d\x7d`
in a single left-to-right pass (`re.sub`), resolving `fragment:` prefixed
tokens recursively.  The character classes of the pattern are ASCII, so the
match procedure is deterministic maximal munch (identifier characters,
`:` and the closing braces are disjoint).  Recursion in the source is
bounded only by the interpreter stack; the embedding makes it total with
an explicit fuel parameter, spent on every step, and a distinguished
`fuelExhausted` outcome that corresponds to no behaviour of the source
other than non-termination / stack overflow. -/
/-- First character class of the token identifier: `[a-zA-Z_]`. -/
def isIdentStart (c : Char) : Bool := c.isAlpha || c = '_'

/-- Continuation character class of the token identifier: `[a-zA-Z0-9_]`. -/
def isIdentChar (c : Char) : Bool := c.isAlphanum || c = '_'

/-- Maximal-munch match of one identifier at the head of the input,
returning the identifier and the remaining characters. -/
def matchIdent : List Char → Option (List Char × List Char)
  | [] => Option.none
  | c :: cs =>
    if isIdentStart c then some (c :: cs.takeWhile isIdentChar, cs.dropWhile isIdentChar)
    else Option.none

/-- Match of the full token pattern at the head of the input: two opening
braces, an identifier, an optional `:identifier` part, two closing braces.
Returns the first identifier, the optional second identifier, and the
characters after the match. -/
def matchToken : List Char → Option (List Char × Option (List Char) × List Char)
  | '\x7b' :: '\x7b' :: cs =>
    match matchIdent cs with
    | Option.none => Option.none
    | some (id1, rest) =>
      match rest with
      | ':' :: cs2 =>
        (match matchIdent cs2 with
         | some (id2, '\x7d' :: '\x7d' :: rest2) => some (id1, some id2, rest2)
         | _ => Option.none)
      | '\x7d' :: '\x7d' :: rest2 => some (id1, Option.none, rest2)
      | _ => Option.none
  | _ => Option.none

/-- The raw text of a matched token, as `match.group(0)` would return it. -/
def tokChars (id1 : List Char) (id2 : Option (List Char)) : List Char :=
  '\x7b' :: '\x7b' ::
    (id1 ++ (match id2 with | some i => ':' :: i | Option.none => []) ++ ['\x7d', '\x7d'])

/-- Decision taken by `replace_match` for the head of the input: no token
here, a `fragment:`-prefixed token, or a plain variable token (whose key
keeps a non-`fragment` colon part verbatim, exactly as the source falls
through to the variable branch in that case). -/
inductive TokStep where
  | noTok : TokStep
  | frag (name : String) (tok : List Char) (after : List Char) : TokStep
  | var (key : String) (tok : List Char) (after : List Char) : TokStep

/-- Classify the head of the input following `TemplateEngine.render`'s
`replace_match`: dissect the matched group at its first `:`; a
`fragment` prefix selects fragment resolution, anything else is treated
as a plain variable key. -/
def classify (cs : List Char) : TokStep :=
  match matchToken cs with
  | Option.none => .noTok
  | some (id1, id2, after) =>
    match id2 with
    | some i2 =>
      if String.mk id1 = "fragment" then .frag (String.mk i2) (tokChars id1 (some i2)) after
      else .var (String.mk (id1 ++ ':' :: i2)) (tokChars id1 (some i2)) after
    | Option.none => .var (String.mk id1) (tokChars id1 Option.none) after

/-- Outcome of a render: a raised `TemplateError`, or fuel exhaustion
(modelling the unbounded recursion of the source on fragment cycles). -/
inductive RErr where
  | templateError (msg : String) : RErr
  | fuelExhausted : RErr

/-- `TemplateEngine.render` on character lists.  A single left-to-right
pass substitutes each matched token: fragment tokens resolve through
`_resolve_fragment` (recursively rendering the fragment body against the
same variables and strict flag, or erroring / staying verbatim when the
fragment is undefined), plain tokens substitute the formatted variable
value (or error / stay verbatim when the key is absent). -/
def renderL (O : PyOracles) (fragments : List (String × String))
    (vars : List (String × PyVal)) (strict : Bool) :
    Nat → List Char → Except RErr (List Char)
  | 0, _ => .error .fuelExhausted
  | _ + 1, [] => .ok []
  | fuel + 1, c :: cs =>
    match classify (c :: cs) with
    | .noTok =>
      match renderL O fragments vars strict fuel cs with
      | .ok out => .ok (c :: out)
      | .error e => .error e
    | .frag name tok after =>
      match fragments.lookup name with
      | Option.none =>
        if strict then .error (.templateError ("Undefined fragment: " ++ name))
        else
          match renderL O fragments vars strict fuel after with
          | .ok out => .ok (tok ++ out)
          | .error e => .error e
      | some body =>
        match renderL O fragments vars strict fuel body.data with
        | .ok sub =>
          match renderL O fragments vars strict fuel after with
          | .ok out => .ok (sub ++ out)
          | .error e => .error e
        | .error e => .error e
    | .var key tok after =>
      match vars.lookup key with
      | some v =>
        match renderL O fragments vars strict fuel after with
        | .ok out => .ok ((formatValue O v).data ++ out)
        | .error e => .error e
      | Option.none =>
        if strict then .error (.templateError ("Undefined variable: " ++ key))
        else
          match renderL O fragments vars strict fuel after with
          | .ok out => .ok (tok ++ out)
          | .error e => .error e

/-- `TemplateEngine.render` on strings. -/
def render (O : PyOracles) (fragments : List (String × String))
    (vars : List (String × PyVal)) (strict : Bool) (fuel : Nat)
    (template : String) : Except RErr String :=
  match renderL O fragments vars strict fuel template.data with
  | .ok out => .ok (String.mk out)
  | .error e => .error e

/-- Instrumented non-strict traversal used to state the specification:
it follows exactly the non-strict `renderL` and additionally collects the
raw text of every token left unresolved (undefined variable key or
undefined fragment name) anywhere reached through recursive fragment
resolution.  `Option.none` is fuel exhaustion. -/
def collectL (O : PyOracles) (fragments : List (String × String))
    (vars : List (String × PyVal)) :
    Nat → List Char → Option (List Char × List (List Char))
  | 0, _ => Option.none
  | _ + 1, [] => some ([], [])
  | fuel + 1, c :: cs =>
    match classify (c :: cs) with
    | .noTok =>
      match collectL O fragments vars fuel cs with
      | some (out, toks) => some (c :: out, toks)
      | Option.none => Option.none
    | .frag name tok after =>
      match fragments.lookup name with
      | Option.none =>
        match collectL O fragments vars fuel after with
        | some (out, toks) => some (tok ++ out, tok :: toks)
        | Option.none => Option.none
      | some body =>
        match collectL O fragments vars fuel body.data with
        | some (sub, stoks) =>
          match collectL O fragments vars fuel after with
          | some (out, toks) => some (sub ++ out, stoks ++ toks)
          | Option.none => Option.none
        | Option.none => Option.none
    | .var key tok after =>
      match vars.lookup key with
      | some v =>
        match collectL O fragments vars fuel after with
        | some (out, toks) => some ((formatValue O v).data ++ out, toks)
        | Option.none => Option.none
      | Option.none =>
        match collectL O fragments vars fuel after with
        | some (out, toks) => some (tok ++ out, tok :: toks)
        | Option.none => Option.none

/-- Fixed interpretation of the Python builtin oracles used by concrete
witnesses (no float parsing, a constant float rendering, a regex engine
that always matches; none of this behaviour is reached by the witnesses). -/
def oracle0 : PyOracles :=
  ⟨fun _ => Option.none, fun _ => "0.0", fun _ _ => .ok true⟩

/-! ### Variable validation (variables.py) -/
/-- `VariableValidation` (types.py): optional constraint block of a
variable declaration. -/
structure VariableValidation where
  pattern : Option String := Option.none
  min_length : Option Int := Option.none
  max_length : Option Int := Option.none
  minimum : Option ℚ := Option.none
  maximum : Option ℚ := Option.none
  enum : Option (List PyVal) := Option.none

/-- `Variable` (types.py).  A Python `default=None` (absent or JSON null,
indistinguishable in the source) is `PyVal.null`; the behaviourally inert
`description`/`example` fields are omitted. -/
structure Variable where
  name : String
  type : String
  required : Bool
  default : PyVal := .null
  validation : Option VariableValidation := Option.none

/-- Exceptions out of the variable validator: `VariableValidationError`
(carrying the variable name and the reason), or an uncaught `re.error`
escaping `re.match` on a bad pattern. -/
inductive VErr where
  | validationError (variable_name msg : String) : VErr
  | reError (msg : String) : VErr

/-- Python `str.lower()` restricted to ASCII case mapping (the inputs
compared against in the source are all ASCII). -/
def pyLower (s : String) : String := String.mk (s.data.map Char.toLower)

/-- Escaping of one character inside a Python string repr with quote
character `q` (backslash, the quote, and the common control characters;
further `\xNN` escapes of unprintables are beyond the needs of this
development). -/
def strEscapeChar (q : Char) (c : Char) : String :=
  if c = '\\' then "\\\\"
  else if c = q then "\\" ++ String.singleton q
  else if c = '\n' then "\\n"
  else if c = '\r' then "\\r"
  else if c = '\t' then "\\t"
  else String.singleton c

/-- Python `repr` of a string: single-quoted, switching to double quotes
when the text contains a single quote but no double quote. -/
def pyReprStr (s : String) : String :=
  if (s.data.any (fun c => c == '\'')) && !(s.data.any (fun c => c == '"')) then
    "\"" ++ String.join (s.data.map (strEscapeChar '"')) ++ "\""
  else "'" ++ String.join (s.data.map (strEscapeChar '\'')) ++ "'"

mutual

/-- Python `repr` of a value (also its `str` for every non-string value). -/
def pyRepr (O : PyOracles) : PyVal → String
  | .null => "None"
  | .bool b => if b then "True" else "False"
  | .int n => toString n
  | .float q => O.floatStr q
  | .str s => pyReprStr s
  | .list xs => "[" ++ pyReprList O xs ++ "]"
  | .dict kvs => "\x7b" ++ pyReprDict O kvs ++ "\x7d"

/-- Comma-joined reprs of list elements. -/
def pyReprList (O : PyOracles) : List PyVal → String
  | [] => ""
  | [x] => pyRepr O x
  | x :: y :: xs => pyRepr O x ++ ", " ++ pyReprList O (y :: xs)

/-- Comma-joined `key: value` reprs of dict items in insertion order. -/
def pyReprDict (O : PyOracles) : List (String × PyVal) → String
  | [] => ""
  | [(k, v)] => pyReprStr k ++ ": " ++ pyRepr O v
  | (k, v) :: p :: kvs =>
      pyReprStr k ++ ": " ++ pyRepr O v ++ ", " ++ pyReprDict O (p :: kvs)

end

/-- Python `str(value)`: identity on strings, `repr` on everything else
among our values. -/
def pyStr (O : PyOracles) : PyVal → String
  | .str s => s
  | v => pyRepr O v

/-- Python `float(value)`: numbers and booleans convert, strings go
through the parsing oracle, everything else raises (`Option.none`). -/
def floatOfVal (O : PyOracles) : PyVal → Option ℚ
  | .int n => some (n : ℚ)
  | .float q => some q
  | .bool b => some (if b then 1 else 0)
  | .str s => O.parseFloat s
  | _ => Option.none

/-- Find the first pair with the given key, returning its value and the
remaining pairs. -/
def popKey (k : String) : List (String × PyVal) → Option (PyVal × List (String × PyVal))
  | [] => Option.none
  | (k', v) :: rest =>
    if k' = k then some (v, rest)
    else
      match popKey k rest with
      | some (v', rest') => some (v', (k', v) :: rest')
      | Option.none => Option.none

mutual

/-- Python `==` on our values: numeric cross-type equality (`True == 1`,
`1 == 1.0`), structural equality on strings and lists, key-based
order-insensitive equality on dicts. -/
def pyEq : PyVal → PyVal → Bool
  | .null, .null => true
  | .bool a, .bool b => a == b
  | .bool a, .int m => (if a then (1 : Int) else 0) == m
  | .bool a, .float q => (if a then (1 : ℚ) else 0) == q
  | .int n, .bool b => n == (if b then (1 : Int) else 0)
  | .int n, .int m => n == m
  | .int n, .float q => (n : ℚ) == q
  | .float p, .bool b => p == (if b then (1 : ℚ) else 0)
  | .float p, .int m => p == (m : ℚ)
  | .float p, .float q => p == q
  | .str s, .str t => s == t
  | .list xs, .list ys => pyEqList xs ys
  | .dict xs, .dict ys => pyEqDict xs ys
  | _, _ => false

/-- Elementwise Python `==` on lists. -/
def pyEqList : List PyVal → List PyVal → Bool
  | [], [] => true
  | x :: xs, y :: ys => pyEq x y && pyEqList xs ys
  | _, _ => false

/-- Key-based Python `==` on dicts. -/
def pyEqDict : List (String × PyVal) → List (String × PyVal) → Bool
  | [], [] => true
  | [], _ :: _ => false
  | (k, v) :: rest, ys =>
    match popKey k ys with
    | some (v', ys') => pyEq v v' && pyEqDict rest ys'
    | Option.none => false

end

/-- `_validate_type` (variables.py): coerce `value` to the declared type
of the variable, raising `VariableValidationError` when impossible.  A
declared type outside the five known ones passes the value through (the
final `return value` of the source). -/
def validate_type (O : PyOracles) (v : Variable) (value : PyVal) : Except VErr PyVal :=
  if v.type = "string" then
    match value with
    | .str _ => .ok value
    | _ => .ok (.str (pyStr O value))
  else if v.type = "number" then
    match value with
    | .bool _ => .error (.validationError v.name ("Expected number, got " ++ typeName value))
    | .int _ => .ok value
    | .float _ => .ok value
    | _ =>
      match floatOfVal O value with
      | some q => .ok (.float q)
      | Option.none =>
        .error (.validationError v.name ("Expected number, got " ++ typeName value))
  else if v.type = "boolean" then
    match value with
    | .bool _ => .ok value
    | .str s =>
      if pyLower s = "true" ∨ pyLower s = "1" ∨ pyLower s = "yes" then .ok (.bool true)
      else if pyLower s = "false" ∨ pyLower s = "0" ∨ pyLower s = "no" then .ok (.bool false)
      else .error (.validationError v.name ("Expected boolean, got " ++ typeName value))
    | _ => .error (.validationError v.name ("Expected boolean, got " ++ typeName value))
  else if v.type = "object" then
    match value with
    | .dict _ => .ok value
    | _ => .error (.validationError v.name ("Expected object, got " ++ typeName value))
  else if v.type = "array" then
    match value with
    | .list _ => .ok value
    | _ => .error (.validationError v.name ("Expected array, got " ++ typeName value))
  else .ok value

/-- The numeric half of `_validate_rules`: bound checks applied to an
`int` or `float` value (booleans excluded by the caller's match). -/
def validate_num_rules (O : PyOracles) (v : Variable) (rules : VariableValidation)
    (x : ℚ) : Except VErr Unit := do
  (match rules.minimum with
   | some m =>
     if x < m then
       Except.error (.validationError v.name ("Value below minimum: " ++ O.floatStr m))
     else Except.ok ()
   | Option.none => Except.ok ())
  (match rules.maximum with
   | some m =>
     if x > m then
       Except.error (.validationError v.name ("Value above maximum: " ++ O.floatStr m))
     else Except.ok ()
   | Option.none => Except.ok ())

/-- `_validate_rules` (variables.py): string constraints (regex pattern,
length bounds), numeric bounds, and the enum allow-list, checked in the
source's order with the first failure raising. -/
def validate_rules (O : PyOracles) (v : Variable) (rules : VariableValidation)
    (value : PyVal) : Except VErr Unit := do
  (match value with
   | .str s => do
     (match rules.pattern with
      | some pat =>
        (match O.reMatch pat s with
         | .error e => Except.error (.reError e)
         | .ok b =>
           if b then Except.ok ()
           else
             Except.error (.validationError v.name ("Value does not match pattern: " ++ pat)))
      | Option.none => Except.ok ())
     (match rules.min_length with
      | some m =>
        if (s.length : Int) < m then
          Except.error (.validationError v.name ("String too short (min: " ++ toString m ++ ")"))
        else Except.ok ()
      | Option.none => Except.ok ())
     (match rules.max_length with
      | some m =>
        if (s.length : Int) > m then
          Except.error (.validationError v.name ("String too long (max: " ++ toString m ++ ")"))
        else Except.ok ()
      | Option.none => Except.ok ())
   | _ => Except.ok ())
  (match value with
   | .int n => validate_num_rules O v rules (n : ℚ)
   | .float q => validate_num_rules O v rules q
   | _ => Except.ok ())
  (match rules.enum with
   | some allowed =>
     if allowed.any (fun e => pyEq e value) then Except.ok ()
     else
       Except.error (.validationError v.name
         ("Value not in allowed values: [" ++ pyReprList O allowed ++ "]"))
   | Option.none => Except.ok ())

/-- `validate_variable` (variables.py): an absent/null value resolves
through the required/default logic without any further check; a present
value is type-coerced and then checked against the optional validation
rules. -/
def validate_variable (O : PyOracles) (v : Variable) (value : PyVal) : Except VErr PyVal :=
  match value with
  | .null =>
    if v.required then
      match v.default with
      | .null => .error (.validationError v.name ("Required variable is missing"))
      | d => .ok d
    else .ok v.default
  | _ =>
    match validate_type O v value with
    | .error e => .error e
    | .ok value' =>
      match v.validation with
      | some rules =>
        (match validate_rules O v rules value' with
         | .error e => .error e
         | .ok _ => .ok value')
      | Option.none => .ok value'

/-! ### Output validators (promptpack-langchain validators.py) -/
/-- `ValidationViolation` (validators.py): one violation with the type of
the validator that produced it, a message, and the validator's
`fail_on_violation` flag. -/
structure ValidationViolation where
  validator_type : String
  message : String
  fail_on_violation : Bool
deriving DecidableEq

/-- `ValidationResult` (validators.py). -/
structure ValidationResult where
  is_valid : Bool
  violations : List ValidationViolation
  content : String

/-- `ValidationResult.has_blocking_violations`: some violation carries
`fail_on_violation = true`. -/
def ValidationResult.has_blocking_violations (r : ValidationResult) : Bool :=
  r.violations.any (fun v => v.fail_on_violation)

/-- Typed view of the free-form `params` dict of a validator, restricted
to the keys read by the four implemented validator types;
`Option.none` models an absent key. -/
structure VParams where
  words : Option (List String) := Option.none
  max_characters : Option Int := Option.none
  min_characters : Option Int := Option.none
  pattern : Option String := Option.none
  must_match : Option Bool := Option.none

/-- `Validator` (types.py): the guardrail declaration. -/
structure Validator where
  type : String
  enabled : Bool
  fail_on_violation : Bool := false
  params : Option VParams := Option.none

/-- Substring test on character lists, as Python's `in` operator on
strings (the empty needle is found everywhere). -/
def isSubList (needle : List Char) : List Char → Bool
  | [] => needle.isEmpty
  | c :: t => needle.isPrefixOf (c :: t) || isSubList needle t

/-- Python `needle in hay` on strings. -/
def strContains (needle hay : String) : Bool := isSubList needle.data hay.data

/-- Python repr of a list of strings, as interpolated into the
banned-words message. -/
def pyReprStrList : List String → String
  | [] => ""
  | [w] => pyReprStr w
  | w :: x :: ws => pyReprStr w ++ ", " ++ pyReprStrList (x :: ws)

/-- `_validate_banned_words` (validators.py): case-insensitive substring
search for each configured word; the message lists the matched words in
the order of the `words` list. -/
def validate_banned_words (content : String) (params : VParams)
    (fail_on_violation : Bool) : Option ValidationViolation :=
  let words := params.words.getD []
  if words = [] then Option.none
  else
    let content_lower := pyLower content
    let found_words := words.filter (fun w => strContains (pyLower w) content_lower)
    if found_words = [] then Option.none
    else
      some ⟨"banned_words",
        "Content contains banned words: [" ++ pyReprStrList found_words ++ "]",
        fail_on_violation⟩

/-- `_validate_max_length` (validators.py).  The source guards with
`if max_chars and len(content) > max_chars`, so a missing key or the
falsy integer `0` short-circuits to no violation. -/
def validate_max_length (content : String) (params : VParams)
    (fail_on_violation : Bool) : Option ValidationViolation :=
  match params.max_characters with
  | some m =>
    if m ≠ 0 ∧ (content.length : Int) > m then
      some ⟨"max_length",
        "Content exceeds max length: " ++ toString content.length ++ " > " ++ toString m,
        fail_on_violation⟩
    else Option.none
  | Option.none => Option.none

/-- `_validate_min_length` (validators.py), with the same truthiness
guard on `min_characters`. -/
def validate_min_length (content : String) (params : VParams)
    (fail_on_violation : Bool) : Option ValidationViolation :=
  match params.min_characters with
  | some m =>
    if m ≠ 0 ∧ (content.length : Int) < m then
      some ⟨"min_length",
        "Content below min length: " ++ toString content.length ++ " < " ++ toString m,
        fail_on_violation⟩
    else Option.none
  | Option.none => Option.none

/-- `_validate_regex_match` (validators.py).  The `re` engine of the
host Python is the `compile` oracle: compiling a pattern yields either a
`re.error` message or a search function over contents.  A missing or
empty (falsy) pattern short-circuits to no violation; a compile failure
becomes a violation value, not an exception. -/
def validate_regex_match (compile : String → Except String (String → Bool))
    (content : String) (params : VParams) (fail_on_violation : Bool) :
    Option ValidationViolation :=
  match params.pattern with
  | Option.none => Option.none
  | some pat =>
    if pat = "" then Option.none
    else
      let must_match := params.must_match.getD true
      match compile pat with
      | .error e => some ⟨"regex_match", "Invalid regex pattern: " ++ e, fail_on_violation⟩
      | .ok srch =>
        if must_match && !(srch content) then
          some ⟨"regex_match",
            "Content does not match required pattern: " ++ pat, fail_on_violation⟩
        else if !must_match && srch content then
          some ⟨"regex_match",
            "Content matches forbidden pattern: " ++ pat, fail_on_violation⟩
        else Option.none

/-- `_run_single_validator` (validators.py): dispatch on the validator's
type tag; unimplemented types produce no violation. -/
def run_single_validator (compile : String → Except String (String → Bool))
    (content : String) (validator : Validator) : Option ValidationViolation :=
  let params := validator.params.getD ⟨Option.none, Option.none, Option.none,
    Option.none, Option.none⟩
  if validator.type = "banned_words" then
    validate_banned_words content params validator.fail_on_violation
  else if validator.type = "max_length" then
    validate_max_length content params validator.fail_on_violation
  else if validator.type = "min_length" then
    validate_min_length content params validator.fail_on_violation
  else if validator.type = "regex_match" then
    validate_regex_match compile content params validator.fail_on_violation
  else Option.none

/-- The accumulation loop of `run_validators`: skip disabled validators,
append each produced violation in order. -/
def collectViolations (compile : String → Except String (String → Bool))
    (content : String) : List Validator → List ValidationViolation
  | [] => []
  | v :: vs =>
    if !v.enabled then collectViolations compile content vs
    else
      match run_single_validator compile content v with
      | some viol => viol :: collectViolations compile content vs
      | Option.none => collectViolations compile content vs

/-- `run_validators` (validators.py): run every enabled validator and
aggregate; `is_valid` is the absence of any blocking violation. -/
def run_validators (compile : String → Except String (String → Bool))
    (content : String) (validators : List Validator) : ValidationResult :=
  let violations := collectViolations compile content validators
  ⟨!(violations.any (fun v => v.fail_on_violation)), violations, content⟩

/-- A regex-engine oracle that always compiles and always matches; the
witnesses below never reach it. -/
def reAlways : String → Except String (String → Bool) := fun _ => .ok (fun _ => true)

/-! ### Pack schema accessors (types.py) -/
/-- `Tool` (types.py): name and description (the parameter spec is not
read by the accessors under verification and is omitted). -/
structure Tool where
  name : String
  description : String
deriving DecidableEq

/-- `ToolPolicy` (types.py). -/
structure ToolPolicy where
  tool_choice : String := "auto"
  max_rounds : Int := 5
  max_tool_calls_per_turn : Int := 10
  blocklist : Option (List String) := Option.none

/-- `Prompt` (types.py), restricted to the fields that
`get_tools_for_prompt` reads (the template/metadata fields it never
touches are omitted). -/
structure Prompt where
  id : String
  tools : Option (List String) := Option.none
  tool_policy : Option ToolPolicy := Option.none

/-- `PromptPack` (types.py): the prompt and tool tables as
insertion-ordered association lists with unique keys (Python dicts). -/
structure PromptPack where
  prompts : List (String × Prompt)
  tools : Option (List (String × Tool)) := Option.none

/-- `PromptPack.get_prompt`: dictionary lookup, `Option.none` on a
missing key. -/
def PromptPack.get_prompt (p : PromptPack) (name : String) : Option Prompt :=
  p.prompts.lookup name

/-- The blocklist set `get_tools_for_prompt` builds: empty unless a
policy carries a blocklist (the source's truthiness test on an empty
blocklist list is invisible, since membership in the empty set and the
empty list agree). -/
def promptBlocklist (prompt : Prompt) : List String :=
  match prompt.tool_policy with
  | some pol => pol.blocklist.getD []
  | Option.none => []

/-- The `for tool_name in prompt.tools` loop of `get_tools_for_prompt`:
skip blocklisted names, silently drop names missing from the tool table,
keep declaration order. -/
def toolLoop (table : List (String × Tool)) (blocklist : List String) :
    List String → List Tool
  | [] => []
  | n :: ns =>
    if n ∈ blocklist then toolLoop table blocklist ns
    else
      match table.lookup n with
      | some t => t :: toolLoop table blocklist ns
      | Option.none => toolLoop table blocklist ns

/-- `PromptPack.get_tools_for_prompt` (types.py): empty when the prompt
is missing, has no `tools` list, or the pack has no tool table; otherwise
the filtered loop over the prompt's declared tool names. -/
def PromptPack.get_tools_for_prompt (p : PromptPack) (prompt_name : String) : List Tool :=
  match p.get_prompt prompt_name with
  | Option.none => []
  | some prompt =>
    match prompt.tools, p.tools with
    | some tool_names, some table => toolLoop table (promptBlocklist prompt) tool_names
    | _, _ => []

/-! ### Parser (parser.py)

`json.loads` and pydantic's `PromptPack.model_validate` are host-library
primitives, modelled as oracle parameters: `jloads` either produces a
parsed document or a `json.JSONDecodeError` message, `model_validate`
either produces a validated pack or the list of structured pydantic error
records.  The filesystem of the file-based entry point is modelled by an
existence flag and a read outcome for the given path. -/
/-- One segment of a pydantic error location path: a mapping key or a
sequence index. -/
inductive PathSeg where
  | key (s : String) : PathSeg
  | idx (n : Int) : PathSeg

/-- One structured error record as rebuilt by `parse_promptpack_string`
from `e.errors()`: field path, message, violated-rule kind. -/
structure ErrRec where
  loc : List PathSeg
  msg : String
  type : String

/-- Outcome of `parse_promptpack_string`: a pack, or a raised
`PromptPackParseError` with its message and structured records. -/
inductive ParseOutcome (π : Type) where
  | ok (pack : π) : ParseOutcome π
  | parseError (msg : String) (errors : List ErrRec) : ParseOutcome π

/-- Outcome of the file-based `parse_promptpack`: additionally a raised
`FileNotFoundError`. -/
inductive FileOutcome (π : Type) where
  | ok (pack : π) : FileOutcome π
  | notFound (msg : String) : FileOutcome π
  | parseError (msg : String) (errors : List ErrRec) : FileOutcome π

/-- `parse_promptpack_string` (parser.py): malformed JSON raises
`PromptPackParseError("Invalid JSON: ...")` with no records; a pydantic
validation failure raises with a message counting the violations and one
rebuilt record per violation. -/
def parse_promptpack_string {α π : Type} (jloads : String → Except String α)
    (model_validate : α → Except (List ErrRec) π) (content : String) :
    ParseOutcome π :=
  match jloads content with
  | .error e => .parseError ("Invalid JSON: " ++ e) []
  | .ok data =>
    match model_validate data with
    | .ok pack => .ok pack
    | .error errs =>
      .parseError ("PromptPack validation failed: " ++ toString errs.length ++ " error(s)")
        (errs.map (fun r => ⟨r.loc, r.msg, r.type⟩))

/-- `parse_promptpack` (parser.py): a missing path raises
`FileNotFoundError`; an `OSError` while reading is wrapped into
`PromptPackParseError`; otherwise the content goes through
`parse_promptpack_string`. -/
def parse_promptpack {α π : Type} (jloads : String → Except String α)
    (model_validate : α → Except (List ErrRec) π) (path : String)
    (file_exists : Bool) (read_text : Except String String) : FileOutcome π :=
  if !file_exists then .notFound ("PromptPack file not found: " ++ path)
  else
    match read_text with
    | .error e => .parseError ("Failed to read PromptPack file: " ++ e) []
    | .ok content =>
      match parse_promptpack_string jloads model_validate content with
      | .ok pack => .ok pack
      | .parseError m errs => .parseError m errs

/-- Fixed oracle pair for the C9 witness: `"bad"` fails JSON decoding
with "Expecting value"; any other document parses and then fails schema
validation with one structured record. -/
def jl0 : String → Except String String :=
  fun s => if s = "bad" then .error ("Expecting value") else .ok s

/-- See `jl0`. -/
def mv0 : String → Except (List ErrRec) Unit :=
  fun _ => .error [⟨[.key ("prompts")], "Field required", "missing"⟩]

/-! #### Relating the strict and non-strict renders to the collector -/
/-- The non-strict render is exactly the output half of the collector:
in particular it can only fail by fuel exhaustion, never with a
`TemplateError`. -/
theorem renderL_false_eq_collectL (O : PyOracles) (frags : List (String × String))
    (vars : List (String × PyVal)) : ∀ (fuel : Nat) (cs : List Char),
    renderL O frags vars false fuel cs =
      (match collectL O frags vars fuel cs with
       | some (out, _) => .ok out
       | Option.none => .error .fuelExhausted) := by
  intro fuel
  induction fuel with
  | zero => intro cs; rfl
  | succ fuel ih =>
    intro cs
    cases cs with
    | nil => rfl
    | cons c cs =>
      cases hc : classify (c :: cs) with
      | noTok =>
        simp only [renderL, collectL, hc, ih cs]
        cases collectL O frags vars fuel cs with
        | none => rfl
        | some p => rfl
      | frag name tok after =>
        cases hl : frags.lookup name with
        | none =>
          simp only [renderL, collectL, hc, hl, ih after, Bool.false_eq_true, if_false]
          cases collectL O frags vars fuel after with
          | none => rfl
          | some p => rfl
        | some body =>
          simp only [renderL, collectL, hc, hl, ih body.data, ih after]
          cases collectL O frags vars fuel body.data with
          | none => rfl
          | some p =>
            cases collectL O frags vars fuel after with
            | none => rfl
            | some q => rfl
      | var key tok after =>
        cases hl : vars.lookup key with
        | none =>
          simp only [renderL, collectL, hc, hl, ih after, Bool.false_eq_true, if_false]
          cases collectL O frags vars fuel after with
          | none => rfl
          | some p => rfl
        | some v =>
          simp only [renderL, collectL, hc, hl, ih after]
          cases collectL O frags vars fuel after with
          | none => rfl
          | some p => rfl

/-- Strict rendering against the collector: when the traversal completes,
strict mode succeeds with the same output precisely when no unresolved
token was reached, and raises a `TemplateError` as soon as some reachable
token is unresolved. -/
theorem collectL_strict (O : PyOracles) (frags : List (String × String))
    (vars : List (String × PyVal)) : ∀ (fuel : Nat) (cs out : List Char)
    (toks : List (List Char)),
    collectL O frags vars fuel cs = some (out, toks) →
    (toks = [] → renderL O frags vars true fuel cs = .ok out)
    ∧ (toks ≠ [] → ∃ m, renderL O frags vars true fuel cs = .error (.templateError m)) := by
  intro fuel
  induction fuel with
  | zero => intro cs out toks h; simp [collectL] at h
  | succ fuel ih =>
    intro cs out toks h
    cases cs with
    | nil =>
      simp only [collectL, Option.some.injEq, Prod.mk.injEq] at h
      obtain ⟨h1, h2⟩ := h
      subst h1; subst h2
      exact ⟨fun _ => rfl, fun hne => absurd rfl hne⟩
    | cons c cs =>
      cases hc : classify (c :: cs) with
      | noTok =>
        simp only [collectL, hc] at h
        cases h0 : collectL O frags vars fuel cs with
        | none => rw [h0] at h; simp at h
        | some p =>
          obtain ⟨o, ts⟩ := p
          rw [h0] at h
          simp only [Option.some.injEq, Prod.mk.injEq] at h
          obtain ⟨h1, h2⟩ := h
          subst h1; subst h2
          have IH := ih cs o ts h0
          constructor
          · intro hts
            have hr := IH.1 hts
            simp [renderL, hc, hr]
          · intro hts
            obtain ⟨m, hm⟩ := IH.2 hts
            exact ⟨m, by simp [renderL, hc, hm]⟩
      | frag name tok after =>
        cases hl : frags.lookup name with
        | none =>
          simp only [collectL, hc, hl] at h
          cases h0 : collectL O frags vars fuel after with
          | none => rw [h0] at h; simp at h
          | some p =>
            obtain ⟨o, ts⟩ := p
            rw [h0] at h
            simp only [Option.some.injEq, Prod.mk.injEq] at h
            obtain ⟨h1, h2⟩ := h
            subst h1; subst h2
            constructor
            · intro hts; simp at hts
            · intro _
              exact ⟨"Undefined fragment: " ++ name, by simp [renderL, hc, hl]⟩
        | some body =>
          simp only [collectL, hc, hl] at h
          cases h0 : collectL O frags vars fuel body.data with
          | none => rw [h0] at h; simp at h
          | some p =>
            obtain ⟨so, st⟩ := p
            rw [h0] at h
            cases h1 : collectL O frags vars fuel after with
            | none => rw [h1] at h; simp at h
            | some q =>
              obtain ⟨ao, ats⟩ := q
              rw [h1] at h
              simp only [Option.some.injEq, Prod.mk.injEq] at h
              obtain ⟨h2, h3⟩ := h
              subst h2; subst h3
              have IHb := ih body.data so st h0
              have IHa := ih after ao ats h1
              constructor
              · intro hts
                obtain ⟨hst, hat⟩ := List.append_eq_nil.mp hts
                have hb := IHb.1 hst
                have ha := IHa.1 hat
                subst hst
                simp [renderL, hc, hl, hb, ha]
              · intro hts
                by_cases hst : st = []
                · have hat : ats ≠ [] := by
                    intro hat; exact hts (by simp [hst, hat])
                  obtain ⟨m, hm⟩ := IHa.2 hat
                  have hb := IHb.1 hst
                  subst hst
                  exact ⟨m, by simp [renderL, hc, hl, hb, hm]⟩
                · obtain ⟨m, hm⟩ := IHb.2 hst
                  exact ⟨m, by simp [renderL, hc, hl, hm]⟩
      | var key tok after =>
        cases hl : vars.lookup key with
        | none =>
          simp only [collectL, hc, hl] at h
          cases h0 : collectL O frags vars fuel after with
          | none => rw [h0] at h; simp at h
          | some p =>
            obtain ⟨o, ts⟩ := p
            rw [h0] at h
            simp only [Option.some.injEq, Prod.mk.injEq] at h
            obtain ⟨h1, h2⟩ := h
            subst h1; subst h2
            constructor
            · intro hts; simp at hts
            · intro _
              exact ⟨"Undefined variable: " ++ key, by simp [renderL, hc, hl]⟩
        | some v =>
          simp only [collectL, hc, hl] at h
          cases h0 : collectL O frags vars fuel after with
          | none => rw [h0] at h; simp at h
          | some p =>
            obtain ⟨o, ts⟩ := p
            rw [h0] at h
            simp only [Option.some.injEq, Prod.mk.injEq] at h
            obtain ⟨h1, h2⟩ := h
            subst h1; subst h2
            have IH := ih after o ts h0
            constructor
            · intro hts
              have hr := IH.1 hts
              simp [renderL, hc, hl, hr]
            · intro hts
              obtain ⟨m, hm⟩ := IH.2 hts
              exact ⟨m, by simp [renderL, hc, hl, hm]⟩

/-- A list stays an infix after prepending material on the left. -/
theorem infix_extend_left {α : Type} (pre : List α) {t o : List α} (h : t <:+: o) :
    t <:+: pre ++ o := by
  obtain ⟨s, u, hsu⟩ := h
  exact ⟨pre ++ s, u, by rw [← hsu]; simp [List.append_assoc]⟩

/-- A list stays an infix after appending material on the right. -/
theorem infix_extend_right {α : Type} (post : List α) {t o : List α} (h : t <:+: o) :
    t <:+: o ++ post := by
  obtain ⟨s, u, hsu⟩ := h
  exact ⟨s, u ++ post, by rw [← hsu]; simp [List.append_assoc]⟩

/-- A list is an infix of itself followed by anything. -/
theorem infix_self_append {α : Type} (t rest : List α) : t <:+: t ++ rest :=
  ⟨[], rest, by simp⟩

/-- Every token the collector reports as unresolved occurs verbatim as a
contiguous substring of the non-strict output. -/
theorem collectL_verbatim (O : PyOracles) (frags : List (String × String))
    (vars : List (String × PyVal)) : ∀ (fuel : Nat) (cs out : List Char)
    (toks : List (List Char)),
    collectL O frags vars fuel cs = some (out, toks) →
    ∀ t ∈ toks, t <:+: out := by
  intro fuel
  induction fuel with
  | zero => intro cs out toks h; simp [collectL] at h
  | succ fuel ih =>
    intro cs out toks h
    cases cs with
    | nil =>
      simp only [collectL, Option.some.injEq, Prod.mk.injEq] at h
      obtain ⟨h1, h2⟩ := h
      subst h1; subst h2
      intro t ht; simp at ht
    | cons c cs =>
      cases hc : classify (c :: cs) with
      | noTok =>
        simp only [collectL, hc] at h
        cases h0 : collectL O frags vars fuel cs with
        | none => rw [h0] at h; simp at h
        | some p =>
          obtain ⟨o, ts⟩ := p
          rw [h0] at h
          simp only [Option.some.injEq, Prod.mk.injEq] at h
          obtain ⟨h1, h2⟩ := h
          subst h1; subst h2
          intro t ht
          exact infix_extend_left [c] (ih cs o ts h0 t ht)
      | frag name tok after =>
        cases hl : frags.lookup name with
        | none =>
          simp only [collectL, hc, hl] at h
          cases h0 : collectL O frags vars fuel after with
          | none => rw [h0] at h; simp at h
          | some p =>
            obtain ⟨o, ts⟩ := p
            rw [h0] at h
            simp only [Option.some.injEq, Prod.mk.injEq] at h
            obtain ⟨h1, h2⟩ := h
            subst h1; subst h2
            intro t ht
            rcases List.mem_cons.mp ht with h | h
            · subst h; exact infix_self_append t o
            · exact infix_extend_left tok (ih after o ts h0 t h)
        | some body =>
          simp only [collectL, hc, hl] at h
          cases h0 : collectL O frags vars fuel body.data with
          | none => rw [h0] at h; simp at h
          | some p =>
            obtain ⟨so, st⟩ := p
            rw [h0] at h
            cases h1 : collectL O frags vars fuel after with
            | none => rw [h1] at h; simp at h
            | some q =>
              obtain ⟨ao, ats⟩ := q
              rw [h1] at h
              simp only [Option.some.injEq, Prod.mk.injEq] at h
              obtain ⟨h2, h3⟩ := h
              subst h2; subst h3
              intro t ht
              rcases List.mem_append.mp ht with h | h
              · exact infix_extend_right ao (ih body.data so st h0 t h)
              · exact infix_extend_left so (ih after ao ats h1 t h)
      | var key tok after =>
        cases hl : vars.lookup key with
        | none =>
          simp only [collectL, hc, hl] at h
          cases h0 : collectL O frags vars fuel after with
          | none => rw [h0] at h; simp at h
          | some p =>
            obtain ⟨o, ts⟩ := p
            rw [h0] at h
            simp only [Option.some.injEq, Prod.mk.injEq] at h
            obtain ⟨h1, h2⟩ := h
            subst h1; subst h2
            intro t ht
            rcases List.mem_cons.mp ht with h | h
            · subst h; exact infix_self_append t o
            · exact infix_extend_left tok (ih after o ts h0 t h)
        | some v =>
          simp only [collectL, hc, hl] at h
          cases h0 : collectL O frags vars fuel after with
          | none => rw [h0] at h; simp at h
          | some p =>
            obtain ⟨o, ts⟩ := p
            rw [h0] at h
            simp only [Option.some.injEq, Prod.mk.injEq] at h
            obtain ⟨h1, h2⟩ := h
            subst h1; subst h2
            intro t ht
            exact infix_extend_left (formatValue O v).data (ih after o ts h0 t ht)

/-- C1: for every template, variable mapping and fragment table, whenever
the traversal completes within the given fuel: strict rendering raises a
`TemplateError` exactly when some plain-variable or fragment token reached
through recursive fragment resolution is undefined, while non-strict
rendering never raises a `TemplateError` and leaves each unresolved token
verbatim (as a contiguous substring) in the output. -/
theorem C1_render_strictness (O : PyOracles) (frags : List (String × String))
    (vars : List (String × PyVal)) (fuel : Nat) (template : List Char) :
    (∀ m, renderL O frags vars false fuel template ≠ .error (.templateError m))
    ∧ (∀ out toks, collectL O frags vars fuel template = some (out, toks) →
        renderL O frags vars false fuel template = .ok out
        ∧ (toks ≠ [] → ∃ m, renderL O frags vars true fuel template = .error (.templateError m))
        ∧ (toks = [] → renderL O frags vars true fuel template = .ok out)
        ∧ (∀ t ∈ toks, t <:+: out)) := by
  constructor
  · intro m hm
    rw [renderL_false_eq_collectL] at hm
    cases h : collectL O frags vars fuel template with
    | none => rw [h] at hm; simp at hm
    | some p => obtain ⟨o, ts⟩ := p; rw [h] at hm; simp at hm
  · intro out toks h
    refine ⟨?_, ?_, ?_, ?_⟩
    · rw [renderL_false_eq_collectL, h]
    · exact fun hts => (collectL_strict O frags vars fuel template out toks h).2 hts
    · exact fun hts => (collectL_strict O frags vars fuel template out toks h).1 hts
    · exact collectL_verbatim O frags vars fuel template out toks h

/-- Concrete instantiation of C1: template `\x7b\x7bfragment:g\x7d\x7d`
with fragment `g = "Hello \x7b\x7bn\x7d\x7d"` and an empty variable
mapping renders non-strictly to `"Hello \x7b\x7bn\x7d\x7d"` keeping the
unresolved `\x7b\x7bn\x7d\x7d` token verbatim, and raises a
`TemplateError` in strict mode. -/
theorem C1_render_strictness_witness :
    renderL oracle0 [("g", "Hello \x7b\x7bn\x7d\x7d")] [] false 20
        ("\x7b\x7bfragment:g\x7d\x7d".data) = .ok ("Hello \x7b\x7bn\x7d\x7d".data)
    ∧ (∃ m, renderL oracle0 [("g", "Hello \x7b\x7bn\x7d\x7d")] [] true 20
        ("\x7b\x7bfragment:g\x7d\x7d".data) = .error (.templateError m))
    ∧ ("\x7b\x7bn\x7d\x7d".data <:+: "Hello \x7b\x7bn\x7d\x7d".data) := by
  have h := (C1_render_strictness oracle0 [("g", "Hello \x7b\x7bn\x7d\x7d")] [] 20
      ("\x7b\x7bfragment:g\x7d\x7d".data)).2 ("Hello \x7b\x7bn\x7d\x7d".data)
      ["\x7b\x7bn\x7d\x7d".data] (by decide)
  exact ⟨h.1, h.2.1 (by simp), h.2.2.2 ("\x7b\x7bn\x7d\x7d".data) (by simp)⟩

/-- C2: for every variable declared `required = true` with a non-null
default, validating an absent/null raw value never raises and returns the
default. -/
theorem C2_required_with_default_returns_default (O : PyOracles) (v : Variable)
    (hreq : v.required = true) (hdef : v.default ≠ .null) :
    validate_variable O v .null = .ok v.default := by
  cases hd : v.default with
  | null => exact absurd hd hdef
  | bool b => simp [validate_variable, hreq, hd]
  | int n => simp [validate_variable, hreq, hd]
  | float q => simp [validate_variable, hreq, hd]
  | str s => simp [validate_variable, hreq, hd]
  | list xs => simp [validate_variable, hreq, hd]
  | dict kvs => simp [validate_variable, hreq, hd]

/-- Concrete instantiation of C2: a required string variable with default
`"d"` resolves a null value to `"d"`. -/
theorem C2_required_with_default_returns_default_witness :
    validate_variable oracle0 ⟨"x", "string", true, .str "d", Option.none⟩ .null
      = .ok (.str "d") :=
  C2_required_with_default_returns_default oracle0
    ⟨"x", "string", true, .str "d", Option.none⟩ rfl
    (fun h => PyVal.noConfusion h)

/-- C10: whatever the declared type, required flag and validation block, a
null raw value with a non-null default resolves to the default verbatim:
neither `_validate_type` nor `_validate_rules` is applied to it. -/
theorem C10_default_bypasses_all_checks (O : PyOracles) (name ty : String)
    (req : Bool) (dflt : PyVal) (valn : Option VariableValidation)
    (hdef : dflt ≠ .null) :
    validate_variable O ⟨name, ty, req, dflt, valn⟩ .null = .ok dflt := by
  cases req with
  | false => simp [validate_variable]
  | true =>
    cases hd : dflt with
    | null => exact absurd hd hdef
    | bool b => simp [validate_variable]
    | int n => simp [validate_variable]
    | float q => simp [validate_variable]
    | str s => simp [validate_variable]
    | list xs => simp [validate_variable]
    | dict kvs => simp [validate_variable]

/-- Concrete instantiation of C10: a required `number` variable whose
default is the string `"abc"` — violating both its own declared type and
its enum allow-list `[1]` — still resolves a null value to that default
successfully. -/
theorem C10_default_bypasses_all_checks_witness :
    validate_variable oracle0
      ⟨"n", "number", true, .str "abc",
        some ⟨Option.none, Option.none, Option.none, Option.none, Option.none,
              some [.int 1]⟩⟩ .null = .ok (.str "abc") :=
  C10_default_bypasses_all_checks oracle0 ("n") ("number") true (.str ("abc"))
    (some ⟨Option.none, Option.none, Option.none, Option.none, Option.none,
           some [.int 1]⟩)
    (fun h => PyVal.noConfusion h)

/-- C8: coercion of a non-null value for a variable of declared type
`number`: booleans are rejected outright, ints and floats pass through
unchanged, strings go through `float(...)` parsing (error when the
conversion is impossible), and lists/dicts/None always fail. -/
theorem C8_number_type_validation (O : PyOracles) (v : Variable) (value : PyVal)
    (hty : v.type = "number") :
    (∀ b, value = .bool b →
      validate_type O v value = .error (.validationError v.name ("Expected number, got bool")))
    ∧ (∀ n, value = .int n → validate_type O v value = .ok value)
    ∧ (∀ q, value = .float q → validate_type O v value = .ok value)
    ∧ (∀ s, value = .str s →
        validate_type O v value =
          (match O.parseFloat s with
           | some q => .ok (.float q)
           | Option.none => .error (.validationError v.name ("Expected number, got str"))))
    ∧ (∀ xs, value = .list xs →
        validate_type O v value = .error (.validationError v.name ("Expected number, got list")))
    ∧ (∀ kvs, value = .dict kvs →
        validate_type O v value = .error (.validationError v.name ("Expected number, got dict"))) := by
  refine ⟨?_, ?_, ?_, ?_, ?_, ?_⟩
  · intro b hb; subst hb; simp [validate_type, hty, typeName]
  · intro n hn; subst hn; simp [validate_type, hty]
  · intro q hq; subst hq; simp [validate_type, hty]
  · intro s hs; subst hs
    cases hp : O.parseFloat s with
    | none => simp [validate_type, hty, typeName, floatOfVal, hp]
    | some q => simp [validate_type, hty, floatOfVal, hp]
  · intro xs hxs; subst hxs; simp [validate_type, hty, typeName, floatOfVal]
  · intro kvs hkvs; subst hkvs; simp [validate_type, hty, typeName, floatOfVal]

/-- Concrete instantiation of C8: for a `number` variable, `True` is
rejected while `3` passes through unchanged. -/
theorem C8_number_type_validation_witness :
    validate_type oracle0 ⟨"x", "number", true, .null, Option.none⟩ (.bool true)
      = .error (.validationError ("x") ("Expected number, got bool"))
    ∧ validate_type oracle0 ⟨"x", "number", true, .null, Option.none⟩ (.int 3)
      = .ok (.int 3) :=
  ⟨(C8_number_type_validation oracle0 ⟨"x", "number", true, .null, Option.none⟩
      (.bool true) rfl).1 true rfl,
   (C8_number_type_validation oracle0 ⟨"x", "number", true, .null, Option.none⟩
      (.int 3) rfl).2.1 3 rfl⟩

/-! #### Properties of the validator runner -/
/-- A banned-words violation carries the flag it was invoked with. -/
theorem validate_banned_words_fov (content : String) (p : VParams) (f : Bool)
    (viol : ValidationViolation) :
    validate_banned_words content p f = some viol → viol.fail_on_violation = f := by
  intro h
  simp only [validate_banned_words] at h
  split at h
  · exact absurd h (by simp)
  · split at h
    · exact absurd h (by simp)
    · injection h with h2; subst h2; rfl

/-- A max-length violation carries the flag it was invoked with. -/
theorem validate_max_length_fov (content : String) (p : VParams) (f : Bool)
    (viol : ValidationViolation) :
    validate_max_length content p f = some viol → viol.fail_on_violation = f := by
  intro h
  simp only [validate_max_length] at h
  split at h
  · split at h
    · injection h with h2; subst h2; rfl
    · exact absurd h (by simp)
  · exact absurd h (by simp)

/-- A min-length violation carries the flag it was invoked with. -/
theorem validate_min_length_fov (content : String) (p : VParams) (f : Bool)
    (viol : ValidationViolation) :
    validate_min_length content p f = some viol → viol.fail_on_violation = f := by
  intro h
  simp only [validate_min_length] at h
  split at h
  · split at h
    · injection h with h2; subst h2; rfl
    · exact absurd h (by simp)
  · exact absurd h (by simp)

/-- A regex violation carries the flag it was invoked with. -/
theorem validate_regex_match_fov (compile : String → Except String (String → Bool))
    (content : String) (p : VParams) (f : Bool) (viol : ValidationViolation) :
    validate_regex_match compile content p f = some viol → viol.fail_on_violation = f := by
  intro h
  simp only [validate_regex_match] at h
  split at h
  · exact absurd h (by simp)
  · split at h
    · exact absurd h (by simp)
    · split at h
      · injection h with h2; subst h2; rfl
      · split at h
        · injection h with h2; subst h2; rfl
        · split at h
          · injection h with h2; subst h2; rfl
          · exact absurd h (by simp)

/-- Any violation produced by the single-validator dispatch carries the
triggering validator's `fail_on_violation` flag unchanged. -/
theorem run_single_validator_fov (compile : String → Except String (String → Bool))
    (content : String) (v : Validator) (viol : ValidationViolation) :
    run_single_validator compile content v = some viol →
    viol.fail_on_violation = v.fail_on_violation := by
  intro h
  simp only [run_single_validator] at h
  split at h
  · exact validate_banned_words_fov content _ v.fail_on_violation viol h
  · split at h
    · exact validate_max_length_fov content _ v.fail_on_violation viol h
    · split at h
      · exact validate_min_length_fov content _ v.fail_on_violation viol h
      · split at h
        · exact validate_regex_match_fov compile content _ v.fail_on_violation viol h
        · exact absurd h (by simp)

/-- Every violation in the accumulated list comes from some enabled
validator of the input list. -/
theorem collectViolations_sound (compile : String → Except String (String → Bool))
    (content : String) : ∀ (vs : List Validator) (viol : ValidationViolation),
    viol ∈ collectViolations compile content vs →
    ∃ v, v ∈ vs ∧ v.enabled = true ∧ run_single_validator compile content v = some viol := by
  intro vs
  induction vs with
  | nil => intro viol h; simp [collectViolations] at h
  | cons v rest ih =>
    intro viol h
    simp only [collectViolations] at h
    cases he : v.enabled with
    | false =>
      rw [he] at h
      simp only [Bool.not_false, if_true] at h
      obtain ⟨w, hw, hen, hr⟩ := ih viol h
      exact ⟨w, List.mem_cons_of_mem v hw, hen, hr⟩
    | true =>
      rw [he] at h
      simp only [Bool.not_true, Bool.false_eq_true, if_false] at h
      cases hr : run_single_validator compile content v with
      | none =>
        rw [hr] at h
        obtain ⟨w, hw, hen, hrr⟩ := ih viol h
        exact ⟨w, List.mem_cons_of_mem v hw, hen, hrr⟩
      | some w =>
        rw [hr] at h
        rcases List.mem_cons.mp h with h1 | h1
        · subst h1; exact ⟨v, List.mem_cons_self v rest, he, hr⟩
        · obtain ⟨w', hw, hen, hrr⟩ := ih viol h1
          exact ⟨w', List.mem_cons_of_mem v hw, hen, hrr⟩

/-- Every violation produced by an enabled validator of the list appears
in the accumulated list (non-blocking violations are retained). -/
theorem collectViolations_complete (compile : String → Except String (String → Bool))
    (content : String) : ∀ (vs : List Validator) (v : Validator),
    v ∈ vs → v.enabled = true → ∀ viol, run_single_validator compile content v = some viol →
    viol ∈ collectViolations compile content vs := by
  intro vs
  induction vs with
  | nil => intro v hv; simp at hv
  | cons w rest ih =>
    intro v hv he viol hr
    rcases List.mem_cons.mp hv with h1 | h1
    · subst h1
      simp only [collectViolations, he, Bool.not_true, Bool.false_eq_true, if_false, hr]
      exact List.mem_cons_self viol _
    · have hmem := ih v h1 he viol hr
      simp only [collectViolations]
      cases hwe : w.enabled with
      | false => simpa using hmem
      | true =>
        simp only [Bool.not_true, Bool.false_eq_true, if_false]
        cases hws : run_single_validator compile content w with
        | none => exact hmem
        | some x => exact List.mem_cons_of_mem x hmem

/-- C3: for every run of the validator runner, `is_valid` is exactly the
absence of a blocking violation among the collected violations (which all
stay in the list, blocking or not), and every collected violation comes
from an enabled validator of the input list, carrying that validator's
`fail_on_violation` flag verbatim; conversely every violation an enabled
validator produces is in the list. -/
theorem C3_validation_result_invariants (compile : String → Except String (String → Bool))
    (content : String) (validators : List Validator) :
    ((run_validators compile content validators).is_valid
      = !((run_validators compile content validators).violations.any
            (fun v => v.fail_on_violation)))
    ∧ ((run_validators compile content validators).is_valid
      = !(run_validators compile content validators).has_blocking_violations)
    ∧ (∀ viol ∈ (run_validators compile content validators).violations,
        ∃ v, v ∈ validators ∧ v.enabled = true
          ∧ run_single_validator compile content v = some viol
          ∧ viol.fail_on_violation = v.fail_on_violation)
    ∧ (∀ v ∈ validators, v.enabled = true →
        ∀ viol, run_single_validator compile content v = some viol →
          viol ∈ (run_validators compile content validators).violations) := by
  refine ⟨rfl, rfl, ?_, ?_⟩
  · intro viol hv
    obtain ⟨v, hmem, hen, hr⟩ := collectViolations_sound compile content validators viol hv
    exact ⟨v, hmem, hen, hr, run_single_validator_fov compile content v viol hr⟩
  · intro v hmem hen viol hr
    exact collectViolations_complete compile content validators v hmem hen viol hr

/-- Concrete instantiation of C3 (the spec's own scenario): one enabled
non-blocking banned-words validator firing on `"this is bad"` leaves its
violation in the list while `is_valid` stays `true`. -/
theorem C3_validation_result_invariants_witness :
    ∃ v, v ∈ [(⟨"banned_words", true, false,
          some ⟨some ["bad"], Option.none, Option.none, Option.none, Option.none⟩⟩ : Validator)]
      ∧ v.enabled = true
      ∧ run_single_validator reAlways ("this is bad") v
          = some ⟨"banned_words", "Content contains banned words: ['bad']", false⟩
      ∧ (⟨"banned_words", "Content contains banned words: ['bad']", false⟩
          : ValidationViolation).fail_on_violation = v.fail_on_violation :=
  (C3_validation_result_invariants reAlways ("this is bad")
      [⟨"banned_words", true, false,
        some ⟨some ["bad"], Option.none, Option.none, Option.none, Option.none⟩⟩]).2.2.1
    ⟨"banned_words", "Content contains banned words: ['bad']", false⟩
    (by
      have hv : (run_validators reAlways ("this is bad")
          [⟨"banned_words", true, false,
            some ⟨some ["bad"], Option.none, Option.none, Option.none, Option.none⟩⟩]).violations
          = [⟨"banned_words", "Content contains banned words: ['bad']", false⟩] := rfl
      rw [hv]
      exact List.mem_singleton.mpr rfl)

/-- C4 as stated is false on the code: with `max_characters = 0` and the
one-character content `"a"` we have `len(content) > max_characters`, yet
the truthiness guard `if max_chars and ...` short-circuits on the falsy
integer `0` and no violation is emitted. -/
theorem C4_counterexample :
    ((("a" : String).length : Int) > 0)
    ∧ validate_max_length ("a")
        ⟨Option.none, some 0, Option.none, Option.none, Option.none⟩ true = Option.none :=
  ⟨by decide, rfl⟩

/-- C4 (amended): with an integer `max_characters` present, a max-length
violation (with the stated message) is emitted exactly when
`max_characters` is non-zero (truthy) and `len(content) > max_characters`;
a min-length violation is emitted exactly when
`len(content) < min_characters` (the truthiness guard is invisible there,
since no length is below zero). -/
theorem C4_length_validators (content : String) (m : Int) (f : Bool) :
    (∀ viol, validate_max_length content
        ⟨Option.none, some m, Option.none, Option.none, Option.none⟩ f = some viol
      ↔ (m ≠ 0 ∧ (content.length : Int) > m
         ∧ viol = ⟨"max_length",
             "Content exceeds max length: " ++ toString content.length ++ " > " ++ toString m,
             f⟩))
    ∧ (∀ viol, validate_min_length content
        ⟨Option.none, Option.none, some m, Option.none, Option.none⟩ f = some viol
      ↔ ((content.length : Int) < m
         ∧ viol = ⟨"min_length",
             "Content below min length: " ++ toString content.length ++ " < " ++ toString m,
             f⟩)) := by
  constructor
  · intro viol
    by_cases hc : m ≠ 0 ∧ (content.length : Int) > m
    · simp [validate_max_length, hc, eq_comm]
    · simp only [validate_max_length, if_neg hc]
      constructor
      · intro h; exact absurd h (by simp)
      · intro ⟨h1, h2, _⟩; exact absurd ⟨h1, h2⟩ hc
  · intro viol
    by_cases hlt : (content.length : Int) < m
    · have hm : m ≠ 0 := by omega
      simp [validate_min_length, hm, hlt, eq_comm]
    · have hc : ¬(m ≠ 0 ∧ (content.length : Int) < m) := fun hh => hlt hh.2
      simp only [validate_min_length, if_neg hc]
      constructor
      · intro h; exact absurd h (by simp)
      · intro ⟨h1, _⟩; exact absurd h1 hlt

/-- Concrete instantiation of the amended C4: content of length 4 against
`max_characters = 3` yields the stated violation. -/
theorem C4_length_validators_witness :
    validate_max_length ("abcd")
        ⟨Option.none, some 3, Option.none, Option.none, Option.none⟩ false
      = some ⟨"max_length", "Content exceeds max length: 4 > 3", false⟩ :=
  ((C4_length_validators ("abcd") 3 false).1
    ⟨"max_length", "Content exceeds max length: 4 > 3", false⟩).mpr
    ⟨by decide, by decide, rfl⟩

/-- C5 as stated is false on the code: the empty pattern `""` is present
as a pattern param, compiles, and matches everywhere (the oracle below
agrees with Python's `re` on it), so with `must_match = false` the claim
demands a "matches forbidden pattern" violation — but the source's
`if not pattern` guard short-circuits on the falsy empty string and no
violation is emitted. -/
theorem C5_regex_counterexample :
    (∃ srch, (fun (_ : String) => (.ok (fun _ => true) : Except String (String → Bool))) ""
        = .ok srch ∧ srch "x" = true)
    ∧ validate_regex_match (fun _ => .ok (fun _ => true)) "x"
        ⟨Option.none, Option.none, Option.none, some "", some false⟩ true = Option.none :=
  ⟨⟨fun _ => true, rfl, rfl⟩, rfl⟩

/-- C5 (amended): for a non-empty pattern the runner never raises: a
compile failure becomes an "Invalid regex pattern" violation value;
otherwise with `must_match` true (the default) a violation is emitted
exactly when the pattern matches nowhere, and with `must_match = false`
exactly when it matches somewhere. -/
theorem C5_regex_match (compile : String → Except String (String → Bool))
    (content pat : String) (mm : Option Bool) (f : Bool) (hpat : pat ≠ "") :
    (∀ e, compile pat = .error e →
      validate_regex_match compile content
          ⟨Option.none, Option.none, Option.none, some pat, mm⟩ f
        = some ⟨"regex_match", "Invalid regex pattern: " ++ e, f⟩)
    ∧ (∀ srch, compile pat = .ok srch →
        (mm.getD true = true →
          validate_regex_match compile content
              ⟨Option.none, Option.none, Option.none, some pat, mm⟩ f
            = (if srch content then Option.none
               else some ⟨"regex_match",
                 "Content does not match required pattern: " ++ pat, f⟩))
        ∧ (mm.getD true = false →
          validate_regex_match compile content
              ⟨Option.none, Option.none, Option.none, some pat, mm⟩ f
            = (if srch content then
                 some ⟨"regex_match", "Content matches forbidden pattern: " ++ pat, f⟩
               else Option.none))) := by
  constructor
  · intro e he
    simp [validate_regex_match, hpat, he]
  · intro srch hs
    constructor
    · intro hmm
      cases hm : srch content with
      | true => simp [validate_regex_match, hpat, hs, hmm, hm]
      | false => simp [validate_regex_match, hpat, hs, hmm, hm]
    · intro hmm
      cases hm : srch content with
      | true => simp [validate_regex_match, hpat, hs, hmm, hm]
      | false => simp [validate_regex_match, hpat, hs, hmm, hm]

/-- Concrete instantiation of the amended C5 (the spec's own scenario): a
pattern that compiles but does not match `"hello"` with `must_match`
defaulted yields the "does not match required pattern" violation. -/
theorem C5_regex_match_witness :
    validate_regex_match (fun _ => .ok (fun c => decide (c = "HELLO")))
        ("hello") ⟨Option.none, Option.none, Option.none, some ("^[A-Z]"), Option.none⟩ false
      = some ⟨"regex_match", "Content does not match required pattern: ^[A-Z]", false⟩ := by
  have h := ((C5_regex_match (fun _ => .ok (fun c => decide (c = "HELLO")))
      ("hello") ("^[A-Z]") Option.none false (by decide)).2
      (fun c => decide (c = "HELLO")) rfl).1 rfl
  simpa using h

/-- C6: for a non-empty `words` list, a banned-words violation is emitted
exactly when some configured word occurs case-insensitively as a substring
of the content, and the message lists precisely the matched words in the
order of the `words` list (a `filter` of that list, not content order). -/
theorem C6_banned_words (content : String) (ws : List String) (f : Bool)
    (hws : ws ≠ []) :
    ((ws.filter (fun w => strContains (pyLower w) (pyLower content)) ≠ [])
      ↔ ∃ w ∈ ws, strContains (pyLower w) (pyLower content) = true)
    ∧ (∀ viol, validate_banned_words content
        ⟨some ws, Option.none, Option.none, Option.none, Option.none⟩ f = some viol
      ↔ (ws.filter (fun w => strContains (pyLower w) (pyLower content)) ≠ []
         ∧ viol = ⟨"banned_words",
             "Content contains banned words: ["
               ++ pyReprStrList (ws.filter (fun w => strContains (pyLower w) (pyLower content)))
               ++ "]", f⟩)) := by
  constructor
  · constructor
    · intro h
      by_contra hno
      push_neg at hno
      exact h (List.filter_eq_nil_iff.mpr (fun w hw => by simp [hno w hw]))
    · intro ⟨w, hw, hmatch⟩ hnil
      have := List.filter_eq_nil_iff.mp hnil w hw
      simp [hmatch] at this
  · intro viol
    by_cases hf : ws.filter (fun w => strContains (pyLower w) (pyLower content)) = []
    · simp [validate_banned_words, hws, hf]
    · simp [validate_banned_words, hws, hf, eq_comm]

/-- Concrete instantiation of C6 (the spec's own scenario): the word
`"bad"` fires on `"this is bad"`, listing `['bad']`. -/
theorem C6_banned_words_witness :
    validate_banned_words ("this is bad")
        ⟨some ["bad"], Option.none, Option.none, Option.none, Option.none⟩ true
      = some ⟨"banned_words", "Content contains banned words: ['bad']", true⟩ := by
  have h := ((C6_banned_words ("this is bad") ["bad"] true (by simp)).2
    ⟨"banned_words", "Content contains banned words: ['bad']", true⟩).mpr
  apply h
  constructor
  · show ["bad"].filter _ ≠ []
    intro hc
    have : ("bad" : String) ∈ ["bad"].filter
        (fun w => strContains (pyLower w) (pyLower ("this is bad"))) := by
      rw [List.mem_filter]
      exact ⟨by simp, rfl⟩
    rw [hc] at this
    simp at this
  · rfl

/-- The accumulation loop is an order-preserving `filterMap` over the
declared names. -/
theorem toolLoop_eq_filterMap (table : List (String × Tool)) (blocklist : List String) :
    ∀ (ns : List String),
    toolLoop table blocklist ns
      = ns.filterMap (fun n => if n ∈ blocklist then Option.none else table.lookup n) := by
  intro ns
  induction ns with
  | nil => rfl
  | cons n rest ih =>
    by_cases hb : n ∈ blocklist
    · simp [toolLoop, hb, ih]
    · cases hl : table.lookup n with
      | none => simp [toolLoop, hb, hl, ih]
      | some t => simp [toolLoop, hb, hl, ih]

/-- C7: `get_tools_for_prompt` returns the empty list when the prompt is
missing, has no tools list, or the pack has no tool table; otherwise it
is the order-preserving `filterMap` of the declared names — so every
returned tool resolves from a declared, non-blocklisted name, and
blocklisted or dangling names are dropped rather than errors. -/
theorem C7_get_tools_for_prompt (p : PromptPack) (prompt_name : String) :
    (p.get_prompt prompt_name = Option.none → p.get_tools_for_prompt prompt_name = [])
    ∧ (∀ prompt, p.get_prompt prompt_name = some prompt →
        (prompt.tools = Option.none → p.get_tools_for_prompt prompt_name = [])
        ∧ (p.tools = Option.none → p.get_tools_for_prompt prompt_name = [])
        ∧ (∀ names table, prompt.tools = some names → p.tools = some table →
            p.get_tools_for_prompt prompt_name
              = names.filterMap (fun n =>
                  if n ∈ promptBlocklist prompt then Option.none else table.lookup n)
            ∧ (∀ t ∈ p.get_tools_for_prompt prompt_name,
                ∃ n, n ∈ names ∧ n ∉ promptBlocklist prompt
                  ∧ table.lookup n = some t))) := by
  constructor
  · intro h
    simp [PromptPack.get_tools_for_prompt, h]
  · intro prompt hp
    refine ⟨?_, ?_, ?_⟩
    · intro ht
      simp [PromptPack.get_tools_for_prompt, hp, ht]
    · intro ht
      cases hpt : prompt.tools with
      | none => simp [PromptPack.get_tools_for_prompt, hp, hpt, ht]
      | some names => simp [PromptPack.get_tools_for_prompt, hp, hpt, ht]
    · intro names table hn htab
      have heq : p.get_tools_for_prompt prompt_name
          = names.filterMap (fun n =>
              if n ∈ promptBlocklist prompt then Option.none else table.lookup n) := by
        simp [PromptPack.get_tools_for_prompt, hp, hn, htab, toolLoop_eq_filterMap]
      refine ⟨heq, ?_⟩
      intro t ht
      rw [heq] at ht
      obtain ⟨n, hmem, hf⟩ := List.mem_filterMap.mp ht
      by_cases hb : n ∈ promptBlocklist prompt
      · rw [if_pos hb] at hf; exact absurd hf (by simp)
      · rw [if_neg hb] at hf
        exact ⟨n, hmem, hb, hf⟩

/-- Concrete instantiation of C7: tools declared `["a", "b", "c", "z"]`
with `"b"` blocklisted and `"z"` dangling resolve, in order, to the
tools named `a` and `c`. -/
theorem C7_get_tools_for_prompt_witness :
    PromptPack.get_tools_for_prompt
      ⟨[("main", ⟨"main", some ["a", "b", "c", "z"],
          some ⟨"auto", 5, 10, some ["b"]⟩⟩)],
       some [("a", ⟨"a", "A"⟩), ("b", ⟨"b", "B"⟩), ("c", ⟨"c", "C"⟩)]⟩ "main"
      = [⟨"a", "A"⟩, ⟨"c", "C"⟩] := by
  have h := ((C7_get_tools_for_prompt
      ⟨[("main", ⟨"main", some ["a", "b", "c", "z"],
          some ⟨"auto", 5, 10, some ["b"]⟩⟩)],
       some [("a", ⟨"a", "A"⟩), ("b", ⟨"b", "B"⟩), ("c", ⟨"c", "C"⟩)]⟩ "main").2
      ⟨"main", some ["a", "b", "c", "z"], some ⟨"auto", 5, 10, some ["b"]⟩⟩ rfl).2.2
      ["a", "b", "c", "z"]
      [("a", ⟨"a", "A"⟩), ("b", ⟨"b", "B"⟩), ("c", ⟨"c", "C"⟩)] rfl rfl
  rw [h.1]
  rfl

/-- A prefix match makes `isSubList` succeed. -/
theorem isSubList_of_isPrefix {n h : List Char} (hp : n <+: h) :
    isSubList n h = true := by
  cases h with
  | nil =>
    have : n = [] := List.prefix_nil.mp hp
    subst this; rfl
  | cons c t =>
    simp only [isSubList, Bool.or_eq_true]
    exact Or.inl (List.isPrefixOf_iff_prefix.mpr hp)

/-- Any infix occurrence makes `isSubList` (Python's `in`) succeed. -/
theorem isSubList_of_infix {n h : List Char} (hinf : n <:+: h) :
    isSubList n h = true := by
  obtain ⟨s, t, hst⟩ := hinf
  subst hst
  induction s with
  | nil => exact isSubList_of_isPrefix (by simp [List.prefix_append])
  | cons c s ih =>
    simp only [List.cons_append, isSubList, Bool.or_eq_true]
    right
    simpa [List.append_assoc] using ih

/-- A string contains any of its middle sections. -/
theorem strContains_mid (pre n rest : String) :
    strContains n (pre ++ n ++ rest) = true :=
  isSubList_of_infix ⟨pre.data, rest.data, by simp [String.data_append]⟩

/-- C9: the two parse-failure kinds are distinguished exactly as claimed:
non-JSON input yields a parse error whose message includes
"Invalid JSON" and carries no records; schema-invalid JSON yields a parse
error whose message includes the violation count and "validation failed"
and carries one structured record per violation; the file entry point
reports a missing path with a distinct not-found outcome and wraps read
failures into the parse-error kind. -/
theorem C9_parser_failure_kinds {α π : Type} (jloads : String → Except String α)
    (model_validate : α → Except (List ErrRec) π) :
    (∀ content e, jloads content = .error e →
      parse_promptpack_string jloads model_validate content
          = .parseError ("Invalid JSON: " ++ e) []
        ∧ strContains ("Invalid JSON") ("Invalid JSON: " ++ e) = true)
    ∧ (∀ content data errs, jloads content = .ok data →
        model_validate data = .error errs →
        parse_promptpack_string jloads model_validate content
            = .parseError
                ("PromptPack validation failed: " ++ toString errs.length ++ " error(s)")
                errs
          ∧ strContains ("validation failed")
              ("PromptPack validation failed: " ++ toString errs.length ++ " error(s)") = true
          ∧ strContains (toString errs.length)
              ("PromptPack validation failed: " ++ toString errs.length ++ " error(s)") = true)
    ∧ (∀ path rt, parse_promptpack jloads model_validate path false rt
        = .notFound ("PromptPack file not found: " ++ path))
    ∧ (∀ path e, parse_promptpack jloads model_validate path true (.error e)
        = .parseError ("Failed to read PromptPack file: " ++ e) []) := by
  refine ⟨?_, ?_, ?_, ?_⟩
  · intro content e he
    constructor
    · simp [parse_promptpack_string, he]
    · have : ("Invalid JSON: " ++ e) = "" ++ "Invalid JSON" ++ (": " ++ e) := rfl
      rw [this]
      exact strContains_mid ("") ("Invalid JSON") ((": ") ++ e)
  · intro content data errs hj hm
    refine ⟨?_, ?_, ?_⟩
    · have hmap : errs.map (fun r : ErrRec => (⟨r.loc, r.msg, r.type⟩ : ErrRec)) = errs :=
        List.map_id' errs
      simp [parse_promptpack_string, hj, hm, hmap]
    · have : ("PromptPack validation failed: " ++ toString errs.length ++ " error(s)")
          = "PromptPack " ++ "validation failed"
              ++ (": " ++ toString errs.length ++ " error(s)") := rfl
      rw [this]
      exact strContains_mid ("PromptPack ") ("validation failed")
        ((": ") ++ toString errs.length ++ (" error(s)"))
    · exact strContains_mid ("PromptPack validation failed: ") (toString errs.length)
        (" error(s)")
  · intro path rt
    simp [parse_promptpack]
  · intro path e
    simp [parse_promptpack]

/-- Concrete instantiation of C9: the string entry point reports the two
failure kinds distinctly, and the file entry point reports a missing file
with the not-found outcome. -/
theorem C9_parser_failure_kinds_witness :
    parse_promptpack_string jl0 mv0 ("bad")
      = .parseError ("Invalid JSON: Expecting value") []
    ∧ parse_promptpack_string jl0 mv0 ("ok")
      = .parseError ("PromptPack validation failed: 1 error(s)")
          [⟨[.key ("prompts")], "Field required", "missing"⟩]
    ∧ parse_promptpack jl0 mv0 ("pack.json") false (.ok (""))
      = .notFound ("PromptPack file not found: pack.json") := by
  have h := C9_parser_failure_kinds jl0 mv0
  refine ⟨?_, ?_, h.2.2.1 ("pack.json") (.ok (""))⟩
  · exact (h.1 ("bad") ("Expecting value") (by simp [jl0])).1
  · exact (h.2.1 ("ok") ("ok") [⟨[.key ("prompts")], "Field required", "missing"⟩]
      (by simp [jl0]) rfl).1

end PromptPack
